import Mathlib

/-!
Verification of the outcomeops analytics platform ingestion core.

The definitions below are a shallow embedding of the two Lambda handlers
`src/lambda/log-parser/handler.py` and `src/lambda/journey-tracker/handler.py`.
Python strings are Lean `String`s manipulated through their character lists,
Python `None` is `Option.none`, DynamoDB tables are explicit association
lists / update functions, and wall-clock inputs (current epoch time, the ISO
timestamp of `datetime.utcnow()`, the generated uuid) are passed as explicit
parameters.  The two standard-library functions `urllib.parse.unquote` and
`urllib.parse.urlparse(...).netloc` are taken as function parameters
(`u` and `nl` below); theorems that need facts about their behaviour state
those facts as hypotheses.
-/

set_option autoImplicit false

namespace Analytics

/-! ### Python string primitives

Helpers mirroring the Python built-ins used by the handlers; all of them
work on the character list of the string, so that concrete instances reduce
by `decide`.
-/

/-- Python `s[a:b]` slicing on strings (character based). -/
def pySlice (s : String) (a b : Nat) : String :=
  String.mk ((s.data.drop a).take (b - a))

/-- Python default `str.strip()` whitespace set (ASCII part). -/
def isPyWs (c : Char) : Bool :=
  c = ' ' || c = '\t' || c = '\n' || c = '\r' || c = '\x0b' || c = '\x0c'

/-- Python `s.strip()`. -/
def pyStrip (s : String) : String :=
  String.mk (((s.data.dropWhile isPyWs).reverse.dropWhile isPyWs).reverse)

/-- Worker for `pySplit`: split a character list at every occurrence of `sep`. -/
def splitChar (sep : Char) : List Char → List Char → List (List Char)
  | [], acc => [acc.reverse]
  | c :: cs, acc =>
    if c = sep then acc.reverse :: splitChar sep cs []
    else splitChar sep cs (c :: acc)

/-- Python `s.split(sep)` for a one-character separator. -/
def pySplit (s : String) (sep : Char) : List String :=
  (splitChar sep s.data []).map String.mk

/-- Worker for `pySplitN`: split with a maximum number of splits. -/
def splitCharN (sep : Char) : Nat → List Char → List Char → List (List Char)
  | _, [], acc => [acc.reverse]
  | 0, cs, acc => [acc.reverse ++ cs]
  | n + 1, c :: cs, acc =>
    if c = sep then acc.reverse :: splitCharN sep n cs []
    else splitCharN sep (n + 1) cs (c :: acc)

/-- Python `s.split(sep, maxsplit)` for a one-character separator. -/
def pySplitN (s : String) (sep : Char) (maxsplit : Nat) : List String :=
  (splitCharN sep maxsplit s.data []).map String.mk

/-- Python `s.lower()` (ASCII case folding, as all inputs here are ASCII). -/
def pyLower (s : String) : String :=
  String.mk (s.data.map Char.toLower)

/-- Python `s.startswith(pre)`. -/
def pyStartsWith (s pre : String) : Bool :=
  pre.data.isPrefixOf s.data

/-- Python `s.endswith(suf)`. -/
def pyEndsWith (s suf : String) : Bool :=
  suf.data.isSuffixOf s.data

/-- Python `s[n:]`. -/
def pyDrop (s : String) (n : Nat) : String :=
  String.mk (s.data.drop n)

/-- Python truthiness of a string (`""` is falsy). -/
def strTruthy (s : String) : Bool := s ≠ ""

/-- Python truthiness of an optional string (`None` and `""` are falsy). -/
def optTruthy : Option String → Bool
  | some s => s ≠ ""
  | none => false

/-- Strip one leading `www.` (handler.py lines 99-100 / 103-104). -/
def stripWww (s : String) : String :=
  if pyStartsWith s "www." then pyDrop s 4 else s

/-- The spec's `normalize(x) = lowercase(x).trim_prefix("www.")`. -/
def normalizeDomain (s : String) : String :=
  stripWww (pyLower s)

/-! ### Log line parser (`log-parser/handler.py`, `_parse_cloudfront_log_line`) -/

/-- Normalized event returned by `_parse_cloudfront_log_line` (lines 114-125). -/
structure ParsedEvent where
  domain : String
  timestamp : String
  date : String
  path : String
  status : String
  referrer : Option String
  referrer_domain : Option String
  user_agent : Option String
  client_ip : String
  request_id : String
deriving Repr, DecidableEq

/-- Referrer-domain derivation of `_parse_cloudfront_log_line` (lines
93-109): guard `if referrer and referrer != "-"`, lowercase the netloc,
strip one leading `www.` on both sides, and suppress self-referrals.  `nl`
maps a URL string to `urlparse(...).netloc`. -/
def deriveReferrerDomain (nl : String → String) (host : String)
    (referrer : Option String) : Option String :=
  match referrer with
  | some r =>
    if r ≠ "" ∧ r ≠ "-" then
      let raw_ref_domain := stripWww (pyLower (nl r))
      let normalized_host := stripWww (pyLower host)
      if raw_ref_domain ≠ "" ∧ raw_ref_domain ≠ normalized_host then
        some raw_ref_domain
      else none
    else none
  | none => none

/-- Field extraction of `_parse_cloudfront_log_line` (lines 82-125) once the
line is split and known to have at least 20 fields.  `u` is
`urllib.parse.unquote`. -/
def buildParsed (u nl : String → String) (fields : List String) : ParsedEvent :=
  let date_str := fields.getD 0 ""
  let time_str := fields.getD 1 ""
  let client_ip := fields.getD 4 ""
  let host := fields.getD 6 ""
  let path := u (fields.getD 7 "")
  let status := fields.getD 8 ""
  let referrer : Option String :=
    if fields.getD 9 "" ≠ "-" then some (u (fields.getD 9 "")) else none
  let user_agent : Option String :=
    if fields.getD 10 "" ≠ "-" then some (u (fields.getD 10 "")) else none
  let request_id := fields.getD 14 ""
  let referrer_domain : Option String := deriveReferrerDomain nl host referrer
  let timestamp := date_str ++ "T" ++ time_str ++ "Z"
  { domain := host, timestamp, date := date_str, path, status,
    referrer, referrer_domain, user_agent, client_ip, request_id }

/-- `_parse_cloudfront_log_line` (lines 61-128): skip comment lines and lines
with fewer than 20 tab-separated fields, otherwise extract the event. -/
def parseCloudFrontLogLine (u nl : String → String) (line : String) :
    Option ParsedEvent :=
  if pyStartsWith line "#" then none
  else
    let fields := pySplit (pyStrip line) '\t'
    if fields.length < 20 then none
    else some (buildParsed u nl fields)

/-! ### Event writer (`log-parser/handler.py`, `_batch_write_to_dynamodb`) -/

/-- `TTL_DAYS = 90` (line 32). -/
def TTL_DAYS : Nat := 90

/-- `int((datetime.now(timezone.utc) + timedelta(days=TTL_DAYS)).timestamp())`
(line 184), with `now` the current epoch second. -/
def ttlAt (now : Nat) : Nat :=
  now + TTL_DAYS * 24 * 60 * 60

/-- DynamoDB item written for one parsed event (lines 186-211).  Optional
attributes are `none` when the corresponding `if` at lines 200-211 skips them. -/
structure DbItem where
  PK : String
  SK : String
  domain : String
  timestamp : String
  path : String
  status : String
  request_id : String
  ttl : Nat
  GSI1PK : String
  GSI1SK : String
  referrer : Option String := none
  referrer_domain : Option String := none
  GSI2PK : Option String := none
  GSI2SK : Option String := none
  user_agent : Option String := none
  client_ip : Option String := none
deriving Repr, DecidableEq

/-- Item construction inside the write loop (lines 179-211). -/
def buildDbItem (now : Nat) (item : ParsedEvent) : DbItem :=
  { PK := item.domain ++ "#" ++ item.date
    SK := item.timestamp ++ "#" ++ item.request_id
    domain := item.domain
    timestamp := item.timestamp
    path := item.path
    status := item.status
    request_id := item.request_id
    ttl := ttlAt now
    GSI1PK := item.domain ++ "#" ++ item.path
    GSI1SK := item.timestamp
    referrer := if optTruthy item.referrer then item.referrer else none
    referrer_domain := if optTruthy item.referrer_domain then item.referrer_domain else none
    GSI2PK := if optTruthy item.referrer_domain then
        some (item.domain ++ "#" ++ item.referrer_domain.getD "") else none
    GSI2SK := if optTruthy item.referrer_domain then some item.timestamp else none
    user_agent := if optTruthy item.user_agent then item.user_agent else none
    client_ip := if strTruthy item.client_ip then some item.client_ip else none }

/-- The event table: rows keyed by `(PK, SK)`, in insertion order. -/
abbrev EventStore : Type := List ((String × String) × DbItem)

/-- DynamoDB `put_item`: overwrite the row with the same `(PK, SK)` key,
or append a new row. -/
def putItem (store : EventStore) (item : DbItem) : EventStore :=
  let k := (item.PK, item.SK)
  if store.any (fun kv => kv.1 = k) then
    store.map (fun kv => if kv.1 = k then (k, item) else kv)
  else store ++ [(k, item)]

/-- `batch_size = 25` (line 172). -/
def BATCH_SIZE : Nat := 25

/-- The chunked write loop of `_batch_write_to_dynamodb` (lines 174-214):
process `BATCH_SIZE` items per underlying batch request, returning the new
store and the `written` counter. -/
def writeChunks (now : Nat) : List ParsedEvent → EventStore → Nat → EventStore × Nat
  | [], store, written => (store, written)
  | items@(_ :: _), store, written =>
    let batch := items.take BATCH_SIZE
    let rest := items.drop BATCH_SIZE
    let store := batch.foldl (fun s it => putItem s (buildDbItem now it)) store
    writeChunks now rest store (written + batch.length)
termination_by items => items.length
decreasing_by subst items; simp [BATCH_SIZE]; omega

/-- `_batch_write_to_dynamodb` (lines 159-216). -/
def batchWriteToDynamo (now : Nat) (items : List ParsedEvent) (store : EventStore) :
    EventStore × Nat :=
  if items.isEmpty then (store, 0)
  else writeChunks now items store 0

/-! ### Rollup writer (`log-parser/handler.py`, `_update_rollups`) -/

/-- Value of one `daily_stats` accumulator entry (line 233). -/
structure DailyAgg where
  requests : Nat
  ips : Finset String
deriving DecidableEq

/-- Insert-or-modify on an insertion-ordered association list, mirroring a
Python `defaultdict`: a missing key is created from `dflt` and then updated. -/
def bumpBy {α : Type} : List (String × α) → String → (α → α) → α → List (String × α)
  | [], k, f, dflt => [(k, f dflt)]
  | (k', v) :: rest, k, f, dflt =>
    if k' = k then (k', f v) :: rest
    else (k', v) :: bumpBy rest k f dflt

/-- Lookup with default on an association list (`defaultdict` read). -/
def lookupD {α : Type} : List (String × α) → String → α → α
  | [], _, dflt => dflt
  | (k', v) :: rest, k, dflt => if k' = k then v else lookupD rest k dflt

/-- `hour = item["timestamp"][11:13] if len(item["timestamp"]) >= 13 else "00"`
(line 246). -/
def hourOf (ts : String) : String :=
  if 13 ≤ ts.length then pySlice ts 11 13 else "00"

/-- `daily_key = f"{domain}#{date}"` (line 249). -/
def dailyKey (it : ParsedEvent) : String :=
  it.domain ++ "#" ++ it.date

/-- `page_key = f"{domain}#{date}#{path}"` (line 255). -/
def pageKey (it : ParsedEvent) : String :=
  it.domain ++ "#" ++ it.date ++ "#" ++ it.path

/-- `ref_key = f"{domain}#{date}#{referrer_domain}"` (line 260). -/
def refKey (it : ParsedEvent) : String :=
  it.domain ++ "#" ++ it.date ++ "#" ++ it.referrer_domain.getD ""

/-- `hour_key = f"{domain}#{date}#{hour}"` (line 264). -/
def hourKey (it : ParsedEvent) : String :=
  it.domain ++ "#" ++ it.date ++ "#" ++ hourOf it.timestamp

/-- Phase-1 in-memory accumulators of `_update_rollups` (lines 233-236). -/
structure RollupAgg where
  daily : List (String × DailyAgg)
  pages : List (String × Nat)
  refs : List (String × Nat)
  hours : List (String × Nat)

/-- Daily-stats accumulator update for one item (lines 250-252):
`requests += 1`, and `ips.add(client_ip)` when the IP is truthy. -/
def dailyStep (it : ParsedEvent) (d : DailyAgg) : DailyAgg :=
  { requests := d.requests + 1
    ips := if strTruthy it.client_ip then insert it.client_ip d.ips else d.ips }

/-- Body of the aggregation loop (lines 238-265) for one item: the four
accumulators are updated independently, the referrer one only when
`referrer_domain` is truthy (line 259). -/
def aggStep (agg : RollupAgg) (it : ParsedEvent) : RollupAgg :=
  { daily := bumpBy agg.daily (dailyKey it) (dailyStep it) ⟨0, ∅⟩
    pages := bumpBy agg.pages (pageKey it) (fun n => n + 1) 0
    refs := if optTruthy it.referrer_domain then
        bumpBy agg.refs (refKey it) (fun n => n + 1) 0
      else agg.refs
    hours := bumpBy agg.hours (hourKey it) (fun n => n + 1) 0 }

/-- The rollup rows of the table, viewed attribute-by-attribute: `requests`
and `unique_ips` live on `STATS#` rows, `count` on `PAGE#`/`REF#`/`HOUR#`
rows; `ttl` is stamped on every updated row.  Keys are `(PK, SK)` pairs and
absent attributes read as `0` / `∅` (the semantics DynamoDB `ADD` gives). -/
structure RollupStore where
  requests : String × String → Nat
  unique_ips : String × String → Finset String
  counts : String × String → Nat
  ttlOf : String × String → Option Nat

/-- A table with no rollup rows: every attribute reads as its `ADD` zero. -/
def emptyRollups : RollupStore :=
  { requests := fun _ => 0
    unique_ips := fun _ => ∅
    counts := fun _ => 0
    ttlOf := fun _ => none }

/-- Row targeted by a daily-stats update (line 275 `key.split("#", 1)` and
line 285 `Key=...`). -/
def dailyTarget (key : String) : String × String :=
  let parts := pySplitN key '#' 1
  ("ROLLUP#" ++ parts.getD 0 "", "STATS#" ++ parts.getD 1 "")

/-- Row targeted by a page-count update (lines 295, 298). -/
def pageTarget (key : String) : String × String :=
  let parts := pySplitN key '#' 2
  ("ROLLUP#" ++ parts.getD 0 "", "PAGE#" ++ parts.getD 1 "" ++ "#" ++ parts.getD 2 "")

/-- Row targeted by a referrer-count update (lines 308, 311). -/
def refTarget (key : String) : String × String :=
  let parts := pySplitN key '#' 2
  ("ROLLUP#" ++ parts.getD 0 "", "REF#" ++ parts.getD 1 "" ++ "#" ++ parts.getD 2 "")

/-- Row targeted by an hourly-count update (lines 321, 324). -/
def hourTarget (key : String) : String × String :=
  let parts := pySplitN key '#' 2
  ("ROLLUP#" ++ parts.getD 0 "", "HOUR#" ++ parts.getD 1 "" ++ "#" ++ parts.getD 2 "")

/-- Daily-stats remote update (lines 274-291): `SET ttl`, `ADD requests`,
and `ADD unique_ips` when the aggregated IP set is non-empty. -/
def applyDaily (now : Nat) (store : RollupStore) (entry : String × DailyAgg) : RollupStore :=
  let key := dailyTarget entry.1
  { store with
    requests := Function.update store.requests key (store.requests key + entry.2.requests)
    unique_ips :=
      if entry.2.ips ≠ ∅ then
        Function.update store.unique_ips key (store.unique_ips key ∪ entry.2.ips)
      else store.unique_ips
    ttlOf := Function.update store.ttlOf key (some (ttlAt now)) }

/-- The count-row remote update shared by the page (lines 294-304), referrer
(lines 307-317) and hourly (lines 320-330) loops, which differ only in the
targeted row: `SET ttl = :ttl ADD #count :c`. -/
def applyCount (target : String → String × String) (now : Nat) (store : RollupStore)
    (entry : String × Nat) : RollupStore :=
  let key := target entry.1
  { store with
    counts := Function.update store.counts key (store.counts key + entry.2)
    ttlOf := Function.update store.ttlOf key (some (ttlAt now)) }

/-- `_update_rollups` (lines 219-336): aggregate in memory, then apply the
four families of atomic updates. -/
def updateRollups (now : Nat) (items : List ParsedEvent) (store : RollupStore) : RollupStore :=
  if items.isEmpty then store
  else
    let agg := items.foldl aggStep ⟨[], [], [], []⟩
    let store := agg.daily.foldl (applyDaily now) store
    let store := agg.pages.foldl (applyCount pageTarget now) store
    let store := agg.refs.foldl (applyCount refTarget now) store
    agg.hours.foldl (applyCount hourTarget now) store

/-- Net `ADD` contribution of a phase-2 count-entry list at each row key. -/
def entryAdd (target : String → String × String) (es : List (String × Nat))
    (k : String × String) : Nat :=
  (es.map (fun e => if target e.1 = k then e.2 else 0)).sum

/-- Net `ADD requests` contribution of a daily-entry list at each row key. -/
def entryReqAdd (es : List (String × DailyAgg)) (k : String × String) : Nat :=
  (es.map (fun e => if dailyTarget e.1 = k then e.2.requests else 0)).sum

/-- Net `ADD unique_ips` contribution of a daily-entry list at each row key. -/
def entryIpsAdd (es : List (String × DailyAgg)) (k : String × String) : Finset String :=
  (es.map (fun e => if dailyTarget e.1 = k then e.2.ips else ∅)).foldr (fun a b => a ∪ b) ∅

/-- Phase-1 aggregation of an item list, from empty accumulators. -/
def aggOf (L : List ParsedEvent) : RollupAgg :=
  L.foldl aggStep ⟨[], [], [], []⟩

/-- Total `requests` delta a processing of `L` adds at each row key. -/
def reqAdd (L : List ParsedEvent) (k : String × String) : Nat :=
  entryReqAdd (aggOf L).daily k

/-- Total `unique_ips` delta a processing of `L` unions in at each row key. -/
def ipsAdd (L : List ParsedEvent) (k : String × String) : Finset String :=
  entryIpsAdd (aggOf L).daily k

/-- Total `count` delta a processing of `L` adds at each row key. -/
def cntAdd (L : List ParsedEvent) (k : String × String) : Nat :=
  entryAdd pageTarget (aggOf L).pages k + entryAdd refTarget (aggOf L).refs k +
    entryAdd hourTarget (aggOf L).hours k

/-! ### Ingestion controller (`log-parser/handler.py`, `lambda_handler`) -/

/-- `_extract_domain_from_s3_key` (lines 131-141). -/
def extractDomainFromS3Key (key : String) : Option String :=
  let parts := pySplit key '/'
  if 0 < parts.length then some (parts.getD 0 "") else none

/-- `_should_exclude_path` (lines 144-156).  `exts` is the pre-lowercased
`EXCLUDED_EXTENSIONS`, `paths` is `EXCLUDED_PATHS`. -/
def shouldExcludePath (exts paths : List String) (path : String) : Bool :=
  let pathLower := pyLower path
  (!exts.isEmpty && exts.any (fun ext => pyEndsWith pathLower ext)) ||
  (!paths.isEmpty && paths.any (fun p => pyStartsWith pathLower (pyLower p)))

/-- One S3 `ObjectCreated` record of the trigger event. -/
structure S3Record where
  bucket : String
  key : String

/-- State threaded through the record loop of `lambda_handler`: the two
tables plus the `total_processed` / `total_written` counters (lines 347-348). -/
structure LogHandlerState where
  store : EventStore
  rollups : RollupStore
  totalProcessed : Nat
  totalWritten : Nat

/-- The per-line branch of the record loop (lines 374-384): parse, drop
excluded paths, and override `domain` with the key-derived domain. -/
def keptItemsStep (u nl : String → String) (exts paths : List String)
    (actualDomain : String) (acc : List ParsedEvent) (line : String) : List ParsedEvent :=
  match parseCloudFrontLogLine u nl line with
  | none => acc
  | some parsed =>
    if shouldExcludePath exts paths parsed.path then acc
    else acc ++ [{ parsed with domain := actualDomain }]

/-- Body of the record loop of `lambda_handler` (lines 353-398).  `fetch`
stands for the S3 read plus gzip decode of lines 360-364, yielding the
decompressed text of the object. -/
def processRecord (u nl : String → String) (fetch : String → String → String)
    (now : Nat) (exts paths : List String) (st : LogHandlerState) (r : S3Record) :
    LogHandlerState :=
  let content := fetch r.bucket r.key
  match extractDomainFromS3Key r.key with
  | none => st
  | some actualDomain =>
    -- `if not actual_domain: continue` (line 368): the empty string is falsy
    if actualDomain = "" then st
    else
      let items := (pySplit content '\n').foldl (keptItemsStep u nl exts paths actualDomain) []
      let processed := st.totalProcessed + items.length
      if items.isEmpty then { st with totalProcessed := processed }
      else
        let written := batchWriteToDynamo now items st.store
        { store := written.1
          rollups := updateRollups now items st.rollups
          totalProcessed := processed
          totalWritten := st.totalWritten + written.2 }

/-- Success result of the log-parser `lambda_handler` (lines 404-413), plus
the final table states. -/
structure LogHandlerResult where
  statusCode : Nat
  processed : Nat
  written : Nat
  finalState : LogHandlerState

/-- `lambda_handler` of the log parser (lines 339-413), on the success path. -/
def logParserHandler (u nl : String → String) (fetch : String → String → String)
    (now : Nat) (exts paths : List String) (records : List S3Record)
    (store : EventStore) (rollups : RollupStore) : LogHandlerResult :=
  let final := records.foldl (processRecord u nl fetch now exts paths)
    { store, rollups, totalProcessed := 0, totalWritten := 0 }
  { statusCode := 200
    processed := final.totalProcessed
    written := final.totalWritten
    finalState := final }

/-! ### Journey tracker (`journey-tracker/handler.py`)

JSON scalar values are modelled as strings and JSON `null` as `none`
(a key explicitly set to `null` behaves like a missing key throughout the
claims considered here).
-/

/-- One tracking event object from the request body (§6 event schema). -/
structure TrackEvent where
  session_id : Option String := none
  event_type : Option String := none
  domain : Option String := none
  path : Option String := none
  timestamp : Option String := none
  event_id : Option String := none
  referrer : Option String := none
  previous_path : Option String := none
  scroll_depth : Option String := none
  time_on_page : Option String := none
  user_agent : Option String := none
  screen_width : Option String := none
  screen_height : Option String := none
  viewport_width : Option String := none
  viewport_height : Option String := none
  is_ai_pattern : Option String := none
  matched_pattern : Option String := none
deriving Repr, DecidableEq

/-- `valid_types` (lines 74-82). -/
def VALID_TYPES : List String :=
  ["session_start", "pageview", "navigation", "scroll", "time_on_page",
   "session_end", "not_found"]

/-- `_validate_event` (lines 61-86): returns the error message, or `none`
when the event is valid. -/
def validateEvent (allowedDomains : List String) (e : TrackEvent) : Option String :=
  if e.session_id = none then some "Missing required field: session_id"
  else if e.event_type = none then some "Missing required field: event_type"
  else if e.domain = none then some "Missing required field: domain"
  else if e.path = none then some "Missing required field: path"
  else if (e.domain.getD "") ∉ allowedDomains then
    some ("Domain not allowed: " ++ e.domain.getD "")
  else if (e.event_type.getD "") ∉ VALID_TYPES then
    some ("Invalid event type: " ++ e.event_type.getD "")
  else none

/-- Session event row written by the journey tracker (lines 109-141). -/
structure SessionItem where
  PK : String
  SK : String
  GSI1PK : String
  GSI1SK : String
  GSI2PK : String
  GSI2SK : String
  session_id : String
  event_type : String
  domain : String
  path : String
  timestamp : String
  ttl : Nat
  referrer : Option String := none
  previous_path : Option String := none
  scroll_depth : Option String := none
  time_on_page : Option String := none
  user_agent : Option String := none
  screen_width : Option String := none
  screen_height : Option String := none
  viewport_width : Option String := none
  viewport_height : Option String := none
  is_ai_pattern : Option String := none
  matched_pattern : Option String := none
deriving Repr, DecidableEq

/-- `_build_dynamodb_item` (lines 89-142).  `nowIso` is
`datetime.utcnow().isoformat()`, `uuidStr` is `str(uuid.uuid4())`, and
`nowEpoch` is `int(time.time())`.  Note: `date = timestamp[:10]` (line 102)
always succeeds on a string timestamp, so the `except (TypeError,
IndexError)` fallback to today's date (lines 103-104) is unreachable for
string-valued timestamps and does not appear here. -/
def buildSessionItem (nowIso uuidStr : String) (nowEpoch : Nat) (e : TrackEvent) :
    SessionItem :=
  let session_id := e.session_id.getD ""
  let event_type := e.event_type.getD ""
  let domain := e.domain.getD ""
  let path := e.path.getD ""
  -- `event_data.get("timestamp") or datetime.utcnow().isoformat() + "Z"` (line 97)
  let timestamp := if optTruthy e.timestamp then e.timestamp.getD "" else nowIso ++ "Z"
  -- `event_data.get("event_id") or str(uuid.uuid4())[:8]` (line 98)
  let event_id := if optTruthy e.event_id then e.event_id.getD "" else pySlice uuidStr 0 8
  let date := pySlice timestamp 0 10
  let ttl := nowEpoch + 90 * 24 * 60 * 60
  { PK := "SESSION#" ++ session_id
    SK := "EVENT#" ++ timestamp ++ "#" ++ event_id
    GSI1PK := "DOMAIN#" ++ domain ++ "#DATE#" ++ date
    GSI1SK := "SESSION#" ++ session_id
    GSI2PK := "DOMAIN#" ++ domain ++ "#PATH#" ++ path
    GSI2SK := timestamp
    session_id, event_type, domain, path, timestamp, ttl
    referrer := e.referrer
    previous_path := e.previous_path
    scroll_depth := e.scroll_depth
    time_on_page := e.time_on_page
    user_agent := e.user_agent
    screen_width := e.screen_width
    screen_height := e.screen_height
    viewport_width := e.viewport_width
    viewport_height := e.viewport_height
    is_ai_pattern := e.is_ai_pattern
    matched_pattern := e.matched_pattern }

/-- Result of `_write_events` (lines 145-170), together with the list of
items put into the sessions table. -/
structure WriteResult where
  written : Nat
  errors : List String
  items : List SessionItem
deriving Repr, DecidableEq

/-- `_write_events` (lines 145-170): validate each event, collect error
messages, and write the valid ones. -/
def writeEvents (allowed : List String) (nowIso uuidStr : String) (nowEpoch : Nat)
    (events : List TrackEvent) : WriteResult :=
  events.foldl
    (fun acc e =>
      match validateEvent allowed e with
      | some err => { acc with errors := acc.errors ++ [err] }
      | none =>
        { acc with
          written := acc.written + 1
          items := acc.items ++ [buildSessionItem nowIso uuidStr nowEpoch e] })
    ⟨0, [], []⟩

/-- JSON values appearing in the tracker's response bodies. -/
inductive Jv where
  | str : String → Jv
  | num : Nat → Jv
  | obj : List (String × Jv) → Jv

/-- API response as assembled by `_response` (lines 43-54): status code,
the fixed header block, and the body that gets `json.dumps`-ed. -/
structure HttpResponse where
  statusCode : Nat
  headers : List (String × String)
  body : Jv

/-- `_response` (lines 43-54). -/
def jsonResponse (statusCode : Nat) (body : Jv) : HttpResponse :=
  { statusCode
    headers :=
      [("Content-Type", "application/json"),
       ("Access-Control-Allow-Origin", "*"),
       ("Access-Control-Allow-Headers", "Content-Type"),
       ("Access-Control-Allow-Methods", "OPTIONS,POST")]
    body }

/-- `_error` (lines 57-58). -/
def errorResponse (statusCode : Nat) (message : String) : HttpResponse :=
  jsonResponse statusCode (Jv.obj [("error", Jv.str message)])

/-- `_handle_single_event` (lines 173-179), also returning the rows written. -/
def handleSingleEvent (allowed : List String) (nowIso uuidStr : String) (nowEpoch : Nat)
    (body : TrackEvent) : HttpResponse × List SessionItem :=
  let result := writeEvents allowed nowIso uuidStr nowEpoch [body]
  if result.written = 1 then
    (jsonResponse 200 (Jv.obj [("status", Jv.str "ok")]), result.items)
  else
    (errorResponse 400 (result.errors.getD 0 "Unknown error"), result.items)

/-- `_handle_batch_events` (lines 182-199), also returning the rows written. -/
def handleBatchEvents (allowed : List String) (nowIso uuidStr : String) (nowEpoch : Nat)
    (events : List TrackEvent) : HttpResponse × List SessionItem :=
  if events.isEmpty then (errorResponse 400 "No events provided", [])
  else if 100 < events.length then (errorResponse 400 "Maximum 100 events per batch", [])
  else
    let result := writeEvents allowed nowIso uuidStr nowEpoch events
    (jsonResponse 200
      (Jv.obj [("status", Jv.str "ok"),
               ("written", Jv.num result.written),
               ("errors", Jv.num result.errors.length)]),
     result.items)

/-- The decoded JSON request body, as the two routes consume it: the object
itself viewed as a single tracking event (`/t`), and its `events` key with
default `[]` (`/t/batch`). -/
structure ReqBody where
  event : TrackEvent := {}
  events : List TrackEvent := []

/-- An incoming HTTP request to the tracker.  `body` defaults to the
string `"\x7b\x7d"` as in `event.get("body", "\x7b\x7d")` (line 220). -/
structure HttpRequest where
  method : String
  rawPath : String
  body : String := "\x7b\x7d"
  isBase64Encoded : Bool := false

/-- `lambda_handler` of the journey tracker (lines 202-241).  `parseJson`
stands for `json.loads` (returning `none` on `JSONDecodeError`) and `b64`
for `base64.b64decode` (returning `none` when the library raises, which the
outer `except` turns into an HTTP 500).  Also returns the rows written. -/
def trackerHandler (allowed : List String) (nowIso uuidStr : String) (nowEpoch : Nat)
    (parseJson : String → Option ReqBody) (b64 : String → Option String)
    (req : HttpRequest) : HttpResponse × List SessionItem :=
  if req.method = "OPTIONS" then (jsonResponse 200 (Jv.obj []), [])
  else if req.method ≠ "POST" then (errorResponse 405 "Method not allowed", [])
  else
    match (if req.isBase64Encoded then b64 req.body else some req.body) with
    | none => (errorResponse 500 "Internal error: invalid base64 body", [])
    | some bodyStr =>
      -- `json.loads(body_str) if body_str else \x7b\x7d` (line 227)
      match (if bodyStr = "" then some {} else parseJson bodyStr) with
      | none => (errorResponse 400 "Invalid JSON body", [])
      | some body =>
        if req.rawPath = "/t" then
          handleSingleEvent allowed nowIso uuidStr nowEpoch body.event
        else if req.rawPath = "/t/batch" then
          handleBatchEvents allowed nowIso uuidStr nowEpoch body.events
        else (errorResponse 404 "Not found", [])

/-! ### Concrete inputs used in counterexamples and witnesses -/

/-- A well-formed 20-field log line: date `2024-01-15`, referer
`https://google.com/`, request id `r1`. -/
def sampleLine : String :=
  "2024-01-15\t12:00:00\tSEA19\t1234\t1.2.3.4\tGET\tmyfantasy.ai\t/\t200\thttps://google.com/\tMozilla/5.0\t-\t-\tHit\tr1\tmyfantasy.ai\thttps\t567\t0.001\t-"

/-- A 20-field log line whose request-id field (field 14) is `"-"`. -/
def dashRequestIdLine : String :=
  "2024-01-15\t12:00:00\tSEA19\t1234\t1.2.3.4\tGET\texample.com\t/\t200\t-\t-\t-\t-\tHit\t-\texample.com\thttps\t567\t0.001\t-"

/-- A 20-field log line whose referer is `https://www./x`, a URL whose netloc
`www.` normalizes to the empty string. -/
def wwwDotRefererLine : String :=
  "2024-01-15\t12:00:00\tSEA19\t1234\t1.2.3.4\tGET\texample.com\t/\t200\thttps://www./x\t-\t-\t-\tHit\tr1\texample.com\thttps\t567\t0.001\t-"

/-- A 20-field log line whose date field `2024-1-5` is not 10 characters. -/
def shortDateLine : String :=
  "2024-1-5\t12:00:00\tSEA19\t1234\t1.2.3.4\tGET\texample.com\t/\t200\t-\t-\t-\t-\tHit\tr1\texample.com\thttps\t567\t0.001\t-"

/-- Netloc oracle used to instantiate the `urlparse(...).netloc` parameter on
the concrete referers appearing above (values of the real `urlparse`). -/
def sampleNetloc (s : String) : String :=
  if s = "https://google.com/" then "google.com"
  else if s = "https://www./x" then "www."
  else ""

/-- Writing the same parsed line repeatedly through the event writer
(`_batch_write_to_dynamodb` invoked once per replay). -/
def iterateWrites (now : Nat) (it : ParsedEvent) : Nat → EventStore → EventStore
  | 0, s => s
  | n + 1, s => iterateWrites now it n (batchWriteToDynamo now [it] s).1

/-- A concrete parsed event (spec §8 scenario 1). -/
def sampleEvent1 : ParsedEvent :=
  { domain := "myfantasy.ai", timestamp := "2024-01-15T12:00:00Z",
    date := "2024-01-15", path := "/", status := "200",
    referrer := some "https://google.com/", referrer_domain := some "google.com",
    user_agent := some "Mozilla/5.0", client_ip := "1.2.3.4", request_id := "r1" }

/-- A second concrete parsed event, distinct from `sampleEvent1`. -/
def sampleEvent2 : ParsedEvent :=
  { domain := "myfantasy.ai", timestamp := "2024-01-15T13:00:00Z",
    date := "2024-01-15", path := "/about", status := "200",
    referrer := none, referrer_domain := none,
    user_agent := none, client_ip := "5.6.7.8", request_id := "r2" }

/-- Allow-list used in the tracker instantiations. -/
def allowedW : List String := ["example.com"]

/-- A canonical uuid4 string for the `str(uuid.uuid4())` parameter. -/
def sampleUuid : String := "00000000-0000-4000-8000-000000000000"

/-- A valid tracking event (no client timestamp or event id). -/
def evValid1 : TrackEvent :=
  { session_id := some "s1", event_type := some "pageview",
    domain := some "example.com", path := some "/" }

/-- An invalid tracking event: the required `path` field is missing
(spec §8 scenario 5, event E2). -/
def evMissingPath : TrackEvent :=
  { session_id := some "s2", event_type := some "pageview",
    domain := some "example.com" }

/-- A second valid tracking event. -/
def evValid2 : TrackEvent :=
  { session_id := some "s3", event_type := some "navigation",
    domain := some "example.com", path := some "/a",
    timestamp := some "2024-01-15T12:00:00Z", event_id := some "deadbeef" }

/-- A concrete `POST /t/batch` request. -/
def batchReq : HttpRequest :=
  { method := "POST", rawPath := "/t/batch", body := "batch-body" }

/-- A JSON-parse oracle mapping the concrete body above to three events
(valid, missing-path, valid). -/
def batchParse (s : String) : Option ReqBody :=
  if s = "batch-body" then some { events := [evValid1, evMissingPath, evValid2] }
  else none

/-! ### Parser inversion helpers -/

/-- Successful parses are exactly `buildParsed` on the split line. -/
theorem parse_eq_some {u nl : String → String} {line : String} {ev : ParsedEvent}
    (h : parseCloudFrontLogLine u nl line = some ev) :
    ev = buildParsed u nl (pySplit (pyStrip line) '\t') := by
  unfold parseCloudFrontLogLine at h
  dsimp only at h
  split at h
  · exact absurd h (by simp)
  · split at h
    · exact absurd h (by simp)
    · exact (Option.some.inj h).symm

theorem buildParsed_request_id (u nl : String → String) (fields : List String) :
    (buildParsed u nl fields).request_id = fields.getD 14 "" := rfl

theorem buildParsed_referrer (u nl : String → String) (fields : List String) :
    (buildParsed u nl fields).referrer =
      if fields.getD 9 "" ≠ "-" then some (u (fields.getD 9 "")) else none := rfl

theorem buildParsed_user_agent (u nl : String → String) (fields : List String) :
    (buildParsed u nl fields).user_agent =
      if fields.getD 10 "" ≠ "-" then some (u (fields.getD 10 "")) else none := rfl

theorem buildParsed_date (u nl : String → String) (fields : List String) :
    (buildParsed u nl fields).date = fields.getD 0 "" := rfl

theorem buildParsed_timestamp (u nl : String → String) (fields : List String) :
    (buildParsed u nl fields).timestamp =
      fields.getD 0 "" ++ "T" ++ fields.getD 1 "" ++ "Z" := rfl

/-! ### C2 — dash handling in the referer, user-agent and request-id slots -/

/--
C2, amended.  In the log line parser, for every line parsed successfully
(hence with at least 20 tab-separated fields), a `"-"` in the referer slot
(field 9) and in the user-agent slot (field 10) is treated as an absent
value; the request_id slot (field 14) however is copied verbatim into the
event, so a `"-"` there is kept, not treated as absent.
-/
theorem dash_slots_absent (u nl : String → String) (line : String) (ev : ParsedEvent)
    (h : parseCloudFrontLogLine u nl line = some ev) :
    ((pySplit (pyStrip line) '\t').getD 9 "" = "-" → ev.referrer = none) ∧
    ((pySplit (pyStrip line) '\t').getD 10 "" = "-" → ev.user_agent = none) ∧
    ev.request_id = (pySplit (pyStrip line) '\t').getD 14 "" := by
  obtain rfl := parse_eq_some h
  refine ⟨fun h9 => ?_, fun h10 => ?_, buildParsed_request_id ..⟩
  · rw [buildParsed_referrer, h9]
    simp
  · rw [buildParsed_user_agent, h10]
    simp

/-- Concrete instantiation of `dash_slots_absent`. -/
theorem dash_slots_absent_witness :
    parseCloudFrontLogLine id sampleNetloc dashRequestIdLine =
      some (buildParsed id sampleNetloc (pySplit (pyStrip dashRequestIdLine) '\t')) ∧
    ((pySplit (pyStrip dashRequestIdLine) '\t').getD 9 "" = "-" →
      (buildParsed id sampleNetloc (pySplit (pyStrip dashRequestIdLine) '\t')).referrer = none) := by
  refine ⟨by decide, ?_⟩
  exact fun h9 =>
    (dash_slots_absent id sampleNetloc dashRequestIdLine _ (by decide)).1 h9

/--
C2, counterexample to the claim as stated: on a line whose request-id field
is `"-"`, the parser keeps `"-"` as the request_id of the normalized event
(it is not absent), and the event writer embeds it into the row's sort key.
-/
theorem dash_request_id_kept :
    (parseCloudFrontLogLine id sampleNetloc dashRequestIdLine).map
        (fun e => e.request_id) = some "-" ∧
    (parseCloudFrontLogLine id sampleNetloc dashRequestIdLine).map
        (fun e => (buildDbItem 0 e).SK) = some "2024-01-15T12:00:00Z#-" := by
  constructor
  · decide
  · decide

/-! ### C1 — self-referral policy for `referrer_domain` -/

theorem normalizeDomain_empty : normalizeDomain "" = "" := by decide

theorem buildParsed_referrer_domain (u nl : String → String) (fields : List String) :
    (buildParsed u nl fields).referrer_domain =
      deriveReferrerDomain nl (fields.getD 6 "")
        (if fields.getD 9 "" ≠ "-" then some (u (fields.getD 9 "")) else none) := rfl

theorem deriveReferrerDomain_none (nl : String → String) (host : String) :
    deriveReferrerDomain nl host none = none := rfl

theorem deriveReferrerDomain_degenerate (nl : String → String) (host s : String)
    (h : s = "" ∨ s = "-") :
    deriveReferrerDomain nl host (some s) = none := by
  unfold deriveReferrerDomain
  dsimp only
  rw [if_neg]
  tauto

theorem deriveReferrerDomain_some (nl : String → String) (host s : String)
    (hs0 : s ≠ "") (hsd : s ≠ "-") :
    deriveReferrerDomain nl host (some s) =
      if stripWww (pyLower (nl s)) ≠ "" ∧
          stripWww (pyLower (nl s)) ≠ stripWww (pyLower host) then
        some (stripWww (pyLower (nl s)))
      else none := by
  unfold deriveReferrerDomain
  dsimp only
  rw [if_pos ⟨hs0, hsd⟩]

/--
C1, amended.  For every log line whose host field is `h` and whose referer
field (after URL-decoding) parses to a URL with netloc `r`, the event
produced by the log line parser has `referrer_domain` absent if and only if
`normalize(r) = normalize(h)` or `normalize(r)` is empty (rather than `r`
itself being empty: a netloc such as `"www."` normalizes to the empty string
and is suppressed although `r ≠ ""`); when present, `referrer_domain`
equals `normalize(r)`.  The hypotheses on `u` and `nl` record the behaviour
of the real `unquote` and `urlparse(...).netloc` on `"-"` and `""`.
-/
theorem referrer_domain_policy (u nl : String → String) (line : String)
    (ev : ParsedEvent) (hst r : String)
    (hparse : parseCloudFrontLogLine u nl line = some ev)
    (hhost : hst = (pySplit (pyStrip line) '\t').getD 6 "")
    (hud : u "-" = "-") (hn0 : nl "" = "") (hnd : nl "-" = "")
    (hr : r = nl (u ((pySplit (pyStrip line) '\t').getD 9 ""))) :
    (ev.referrer_domain = none ↔
      (normalizeDomain r = normalizeDomain hst ∨ normalizeDomain r = "")) ∧
    (∀ d, ev.referrer_domain = some d → d = normalizeDomain r) := by
  obtain rfl := parse_eq_some hparse
  rw [buildParsed_referrer_domain]
  subst hhost hr
  by_cases h9 : (pySplit (pyStrip line) '\t').getD 9 "" = "-"
  · have hr0 : nl (u ((pySplit (pyStrip line) '\t').getD 9 "")) = "" := by
      rw [h9, hud, hnd]
    rw [if_neg (not_not_intro h9), deriveReferrerDomain_none, hr0, normalizeDomain_empty]
    exact ⟨by simp, fun d hd => absurd hd (by simp)⟩
  · rw [if_pos h9]
    by_cases hs0 : u ((pySplit (pyStrip line) '\t').getD 9 "") = ""
    · have hr0 : nl (u ((pySplit (pyStrip line) '\t').getD 9 "")) = "" := by
        rw [hs0, hn0]
      rw [deriveReferrerDomain_degenerate _ _ _ (Or.inl hs0), hr0, normalizeDomain_empty]
      exact ⟨by simp, fun d hd => absurd hd (by simp)⟩
    · by_cases hsd : u ((pySplit (pyStrip line) '\t').getD 9 "") = "-"
      · have hr0 : nl (u ((pySplit (pyStrip line) '\t').getD 9 "")) = "" := by
          rw [hsd, hnd]
        rw [deriveReferrerDomain_degenerate _ _ _ (Or.inr hsd), hr0, normalizeDomain_empty]
        exact ⟨by simp, fun d hd => absurd hd (by simp)⟩
      · rw [deriveReferrerDomain_some _ _ _ hs0 hsd]
        show (_ = none ↔
            (stripWww (pyLower (nl (u ((pySplit (pyStrip line) '\t').getD 9 "")))) =
              stripWww (pyLower ((pySplit (pyStrip line) '\t').getD 6 "")) ∨
             stripWww (pyLower (nl (u ((pySplit (pyStrip line) '\t').getD 9 "")))) = "")) ∧ _
        by_cases hc : stripWww (pyLower (nl (u ((pySplit (pyStrip line) '\t').getD 9 "")))) ≠ "" ∧
            stripWww (pyLower (nl (u ((pySplit (pyStrip line) '\t').getD 9 "")))) ≠
              stripWww (pyLower ((pySplit (pyStrip line) '\t').getD 6 ""))
        · rw [if_pos hc]
          refine ⟨⟨fun hd => absurd hd (by simp), fun hd => ?_⟩, fun d hd => (Option.some.inj hd).symm⟩
          exact absurd hd (by tauto)
        · rw [if_neg hc]
          rw [not_and_or, not_not, not_not] at hc
          exact ⟨⟨fun _ => by tauto, fun _ => rfl⟩, fun d hd => absurd hd (by simp)⟩

/-- Concrete instantiation of `referrer_domain_policy` on a line with an
external referer `https://google.com/` against host `myfantasy.ai`. -/
theorem referrer_domain_policy_witness :
    ((buildParsed id sampleNetloc (pySplit (pyStrip sampleLine) '\t')).referrer_domain = none ↔
      (normalizeDomain (sampleNetloc (id ((pySplit (pyStrip sampleLine) '\t').getD 9 ""))) =
        normalizeDomain ((pySplit (pyStrip sampleLine) '\t').getD 6 "") ∨
       normalizeDomain (sampleNetloc (id ((pySplit (pyStrip sampleLine) '\t').getD 9 ""))) = "")) ∧
    (∀ d, (buildParsed id sampleNetloc (pySplit (pyStrip sampleLine) '\t')).referrer_domain = some d →
      d = normalizeDomain (sampleNetloc (id ((pySplit (pyStrip sampleLine) '\t').getD 9 "")))) :=
  referrer_domain_policy id sampleNetloc sampleLine
    (buildParsed id sampleNetloc (pySplit (pyStrip sampleLine) '\t'))
    ((pySplit (pyStrip sampleLine) '\t').getD 6 "")
    (sampleNetloc (id ((pySplit (pyStrip sampleLine) '\t').getD 9 "")))
    (by decide) rfl rfl (by decide) (by decide) rfl

/--
C1, counterexample to the claim as stated: the referer `https://www./x` has
the non-empty netloc `"www."`, whose normalization is empty but differs from
the normalized host, yet the parser suppresses `referrer_domain` — so
"absent iff normalize(r) = normalize(h) or r is empty" fails at this line.
-/
theorem referrer_domain_policy_counterexample :
    (parseCloudFrontLogLine id sampleNetloc wwwDotRefererLine).map
        (fun e => e.referrer_domain) = some none ∧
    sampleNetloc (id ((pySplit (pyStrip wwwDotRefererLine) '\t').getD 9 "")) = "www." ∧
    ("www." : String) ≠ "" ∧
    normalizeDomain "www." ≠
      normalizeDomain ((pySplit (pyStrip wwwDotRefererLine) '\t').getD 6 "") := by
  refine ⟨by decide, by decide, by decide, by decide⟩

/-! ### C6 — partition-key date segment vs timestamp prefix -/

theorem splitChar_no_sep (sep : Char) (l acc : List Char) (h : sep ∉ l) :
    splitChar sep l acc = [acc.reverse ++ l] := by
  induction l generalizing acc with
  | nil => simp [splitChar]
  | cons c cs ih =>
    rw [splitChar, if_neg (by rintro rfl; exact h (List.mem_cons_self _ _)),
      ih _ (fun hm => h (List.mem_cons_of_mem c hm))]
    simp

theorem splitChar_sep_split (sep : Char) (l1 l2 acc : List Char) (h : sep ∉ l1) :
    splitChar sep (l1 ++ sep :: l2) acc = (acc.reverse ++ l1) :: splitChar sep l2 [] := by
  induction l1 generalizing acc with
  | nil => simp [splitChar]
  | cons c cs ih =>
    rw [List.cons_append, splitChar, if_neg (by rintro rfl; exact h (List.mem_cons_self _ _)),
      ih _ (fun hm => h (List.mem_cons_of_mem c hm))]
    simp

/-- `f"{a}#{b}".split("#")` is `[a, b]` when neither part contains `#`. -/
theorem pySplit_two_parts (a b : String) (ha : '#' ∉ a.data) (hb : '#' ∉ b.data) :
    pySplit (a ++ "#" ++ b) '#' = [a, b] := by
  unfold pySplit
  have hdata : (a ++ "#" ++ b).data = a.data ++ '#' :: b.data := by
    simp [String.data_append]
  rw [hdata, splitChar_sep_split _ _ _ _ ha, splitChar_no_sep _ _ _ hb]
  rfl

/-- Python `s[0:10]` of `a ++ b` is `a` when `a` has exactly 10 characters. -/
theorem pySlice_prefix_ten (a b : String) (h : a.length = 10) :
    pySlice (a ++ b) 0 10 = a := by
  have h' : a.data.length = 10 := h
  show String.mk (((a ++ b).data.drop 0).take (10 - 0)) = a
  rw [String.data_append, List.drop_zero, Nat.sub_zero, ← h', List.take_left]

/--
C6, amended.  For every event row built by the event writer from a parsed
log line (with its domain overridden by the controller's key-derived
domain), the date segment of the partition key equals the first ten
characters of the row's timestamp — `PK.split("#")[1] == timestamp[0:10]` —
provided the domain and the line's date field contain no `'#'` and the date
field is exactly 10 characters long.  (Without those provisos the naive
`split("#")[1]` indexing or the 10-character slice picks up the wrong
segment, see the counterexample.)
-/
theorem event_row_pk_date (u nl : String → String) (line : String) (ev : ParsedEvent)
    (dom : String) (now : Nat)
    (hparse : parseCloudFrontLogLine u nl line = some ev)
    (hdom : '#' ∉ dom.data) (hdate : '#' ∉ ev.date.data) (hlen : ev.date.length = 10) :
    (pySplit (buildDbItem now { ev with domain := dom }).PK '#').getD 1 "" =
      pySlice (buildDbItem now { ev with domain := dom }).timestamp 0 10 := by
  obtain rfl := parse_eq_some hparse
  have hPK : (buildDbItem now { buildParsed u nl (pySplit (pyStrip line) '\t') with
      domain := dom }).PK = dom ++ "#" ++ (buildParsed u nl (pySplit (pyStrip line) '\t')).date := rfl
  have hts : (buildDbItem now { buildParsed u nl (pySplit (pyStrip line) '\t') with
      domain := dom }).timestamp = (buildParsed u nl (pySplit (pyStrip line) '\t')).timestamp := rfl
  rw [hPK, hts, pySplit_two_parts dom _ hdom hdate, buildParsed_timestamp,
    String.append_assoc, String.append_assoc, ← buildParsed_date u nl,
    pySlice_prefix_ten _ _ hlen]
  rfl

/-- Concrete instantiation of `event_row_pk_date` on a well-formed line. -/
theorem event_row_pk_date_witness :
    (pySplit (buildDbItem 0 { buildParsed id sampleNetloc (pySplit (pyStrip sampleLine) '\t') with
        domain := "example.com" }).PK '#').getD 1 "" =
      pySlice (buildDbItem 0 { buildParsed id sampleNetloc (pySplit (pyStrip sampleLine) '\t') with
        domain := "example.com" }).timestamp 0 10 :=
  event_row_pk_date id sampleNetloc sampleLine _ "example.com" 0
    (by decide) (by decide) (by decide) (by decide)

/--
C6, counterexample to the claim as stated: a line whose date field is
`2024-1-5` (8 characters) parses successfully, and its event row has
`PK.split("#")[1] = "2024-1-5"` but `timestamp[0:10] = "2024-1-5T1"`.
-/
theorem event_row_pk_date_counterexample :
    (parseCloudFrontLogLine id sampleNetloc shortDateLine).map
        (fun e =>
          ((pySplit (buildDbItem 0 { e with domain := "example.com" }).PK '#').getD 1 "",
           pySlice (buildDbItem 0 { e with domain := "example.com" }).timestamp 0 10)) =
      some ("2024-1-5", "2024-1-5T1") ∧
    ("2024-1-5" : String) ≠ "2024-1-5T1" := by
  exact ⟨by decide, by decide⟩

/-! ### C7 — hourly rollup key -/

/-- Python `s[11:13]` of a well-formed ISO timestamp is the hour component. -/
theorem pySlice_hour_component (d hh rest : String) (hd : d.length = 10)
    (hh2 : hh.length = 2) :
    pySlice (d ++ "T" ++ hh ++ rest) 11 13 = hh := by
  have hd' : d.data.length = 10 := hd
  have hh2' : hh.data.length = 2 := hh2
  show String.mk (((d ++ "T" ++ hh ++ rest).data.drop 11).take (13 - 11)) = hh
  have hdata : (d ++ "T" ++ hh ++ rest).data = (d.data ++ ['T']) ++ (hh.data ++ rest.data) := by
    simp [String.data_append]
  have h11 : (d.data ++ ['T']).length = 11 := by simp [hd']
  rw [hdata, show (13 - 11 : Nat) = 2 from rfl, ← h11, List.drop_left, ← hh2',
    List.take_left]

theorem ts_length_ge_13 (d hh rest : String) (hd : d.length = 10)
    (hh2 : hh.length = 2) : 13 ≤ (d ++ "T" ++ hh ++ rest).length := by
  have hd' : d.data.length = 10 := hd
  have hh2' : hh.data.length = 2 := hh2
  show 13 ≤ (d ++ "T" ++ hh ++ rest).data.length
  have hdata : (d ++ "T" ++ hh ++ rest).data = (d.data ++ ['T']) ++ (hh.data ++ rest.data) := by
    simp [String.data_append]
  rw [hdata]
  simp [hd', hh2']
  omega

/--
C7.  For every event processed by the rollup writer, the hourly accumulator
key `f"{domain}#{date}#{hour}"` uses `hour = timestamp[11:13]` when the
timestamp has at least 13 characters and defaults to `"00"` otherwise; and
on a well-formed ISO-8601 timestamp `date + "T" + HH + rest` that slice is
exactly the two-digit hour `HH`.
-/
theorem hourly_key_uses_hh (it : ParsedEvent) :
    (13 ≤ it.timestamp.length →
      hourKey it = it.domain ++ "#" ++ it.date ++ "#" ++ pySlice it.timestamp 11 13) ∧
    (it.timestamp.length < 13 →
      hourKey it = it.domain ++ "#" ++ it.date ++ "#" ++ "00") ∧
    (∀ d hh rest, d.length = 10 → hh.length = 2 → it.timestamp = d ++ "T" ++ hh ++ rest →
      hourOf it.timestamp = hh) := by
  refine ⟨fun h13 => ?_, fun hlt => ?_, fun d hh rest hd hh2 hts => ?_⟩
  · rw [hourKey, hourOf, if_pos h13]
  · rw [hourKey, hourOf, if_neg (by omega)]
  · rw [hts, hourOf, if_pos (ts_length_ge_13 d hh rest hd hh2),
      pySlice_hour_component d hh rest hd hh2]

/-- Concrete instantiation of `hourly_key_uses_hh` (spec §8 scenario 1:
hour `12` from timestamp `2024-01-15T12:00:00Z`). -/
theorem hourly_key_uses_hh_witness :
    hourKey sampleEvent1 =
      sampleEvent1.domain ++ "#" ++ sampleEvent1.date ++ "#" ++
        pySlice sampleEvent1.timestamp 11 13 ∧
    hourOf sampleEvent1.timestamp = "12" :=
  ⟨(hourly_key_uses_hh sampleEvent1).1 (by decide),
   (hourly_key_uses_hh sampleEvent1).2.2 "2024-01-15" "12" ":00:00Z"
     (by decide) (by decide) rfl⟩

/-! ### C4 — idempotent event-row replay -/

theorem putItem_nil (item : DbItem) :
    putItem [] item = [((item.PK, item.SK), item)] := by
  simp [putItem]

theorem putItem_self (item : DbItem) :
    putItem [((item.PK, item.SK), item)] item = [((item.PK, item.SK), item)] := by
  simp [putItem]

/-- One call of `_batch_write_to_dynamodb` on a single parsed line is one
`put_item` of `buildDbItem`. -/
theorem batchWrite_single (now : Nat) (it : ParsedEvent) (s : EventStore) :
    batchWriteToDynamo now [it] s = (putItem s (buildDbItem now it), 1) := by
  unfold batchWriteToDynamo
  rw [if_neg (by simp)]
  rw [writeChunks]
  simp only [BATCH_SIZE, List.take, List.drop, List.foldl]
  rw [writeChunks]
  simp

theorem iterateWrites_fixed (now : Nat) (it : ParsedEvent) (m : Nat) :
    iterateWrites now it m [(((buildDbItem now it).PK, (buildDbItem now it).SK), buildDbItem now it)] =
      [(((buildDbItem now it).PK, (buildDbItem now it).SK), buildDbItem now it)] := by
  induction m with
  | zero => rfl
  | succ k ih =>
    rw [iterateWrites, batchWrite_single]
    dsimp only
    rw [putItem_self]
    exact ih

/--
C4.  Replaying a parsed log line through the event writer is idempotent:
every write of that line constructs the same DynamoDB item (in particular it
targets the same `(PK, SK)` key), and writing the line `n ≥ 1` times into an
empty table yields exactly one event row, identical to the one produced by
the first write.
-/
theorem event_write_idempotent (now : Nat) (it : ParsedEvent) (n : Nat) (hn : 1 ≤ n) :
    (∀ s : EventStore, batchWriteToDynamo now [it] s = (putItem s (buildDbItem now it), 1)) ∧
    iterateWrites now it n [] =
      [(((buildDbItem now it).PK, (buildDbItem now it).SK), buildDbItem now it)] := by
  refine ⟨batchWrite_single now it, ?_⟩
  obtain ⟨m, rfl⟩ : ∃ m, n = m + 1 := ⟨n - 1, by omega⟩
  rw [iterateWrites, batchWrite_single]
  dsimp only
  rw [putItem_nil]
  exact iterateWrites_fixed now it m

/-- Concrete instantiation of `event_write_idempotent`: three replays of the
same line leave a single row. -/
theorem event_write_idempotent_witness :
    1 ≤ 3 ∧
    iterateWrites 0 sampleEvent1 3 [] =
      [(((buildDbItem 0 sampleEvent1).PK, (buildDbItem 0 sampleEvent1).SK),
        buildDbItem 0 sampleEvent1)] :=
  ⟨by decide, (event_write_idempotent 0 sampleEvent1 3 (by decide)).2⟩

/-! ### C5 — rollup commutativity -/

theorem foldl_applyCount_counts (target : String → String × String) (now : Nat)
    (es : List (String × Nat)) (s : RollupStore) :
    (es.foldl (applyCount target now) s).counts =
      fun k => s.counts k + entryAdd target es k := by
  induction es generalizing s with
  | nil => funext k; simp [entryAdd]
  | cons e es ih =>
    rw [List.foldl_cons, ih]
    funext k
    show Function.update s.counts (target e.1) (s.counts (target e.1) + e.2) k +
        entryAdd target es k =
      s.counts k + entryAdd target (e :: es) k
    rw [Function.update_apply]
    simp only [entryAdd, List.map_cons, List.sum_cons]
    by_cases hk : k = target e.1
    · rw [if_pos hk, if_pos hk.symm, hk]
      omega
    · rw [if_neg hk, if_neg (fun h => hk h.symm)]
      omega

theorem foldl_applyCount_requests (target : String → String × String) (now : Nat)
    (es : List (String × Nat)) (s : RollupStore) :
    (es.foldl (applyCount target now) s).requests = s.requests := by
  induction es generalizing s with
  | nil => rfl
  | cons e es ih => rw [List.foldl_cons, ih]; rfl

theorem foldl_applyCount_unique (target : String → String × String) (now : Nat)
    (es : List (String × Nat)) (s : RollupStore) :
    (es.foldl (applyCount target now) s).unique_ips = s.unique_ips := by
  induction es generalizing s with
  | nil => rfl
  | cons e es ih => rw [List.foldl_cons, ih]; rfl

theorem foldl_applyDaily_counts (now : Nat) (es : List (String × DailyAgg))
    (s : RollupStore) :
    (es.foldl (applyDaily now) s).counts = s.counts := by
  induction es generalizing s with
  | nil => rfl
  | cons e es ih => rw [List.foldl_cons, ih]; rfl

theorem foldl_applyDaily_requests (now : Nat) (es : List (String × DailyAgg))
    (s : RollupStore) :
    (es.foldl (applyDaily now) s).requests =
      fun k => s.requests k + entryReqAdd es k := by
  induction es generalizing s with
  | nil => funext k; simp [entryReqAdd]
  | cons e es ih =>
    rw [List.foldl_cons, ih]
    funext k
    show Function.update s.requests (dailyTarget e.1)
        (s.requests (dailyTarget e.1) + e.2.requests) k + entryReqAdd es k =
      s.requests k + entryReqAdd (e :: es) k
    rw [Function.update_apply]
    simp only [entryReqAdd, List.map_cons, List.sum_cons]
    by_cases hk : k = dailyTarget e.1
    · rw [if_pos hk, if_pos hk.symm, hk]
      omega
    · rw [if_neg hk, if_neg (fun h => hk h.symm)]
      omega

theorem foldl_applyDaily_unique (now : Nat) (es : List (String × DailyAgg))
    (s : RollupStore) :
    (es.foldl (applyDaily now) s).unique_ips =
      fun k => s.unique_ips k ∪ entryIpsAdd es k := by
  induction es generalizing s with
  | nil => funext k; simp [entryIpsAdd]
  | cons e es ih =>
    rw [List.foldl_cons, ih]
    funext k
    show (if e.2.ips ≠ ∅ then
        Function.update s.unique_ips (dailyTarget e.1)
          (s.unique_ips (dailyTarget e.1) ∪ e.2.ips)
      else s.unique_ips) k ∪ entryIpsAdd es k =
      s.unique_ips k ∪ entryIpsAdd (e :: es) k
    simp only [entryIpsAdd, List.map_cons, List.foldr_cons]
    by_cases hips : e.2.ips = ∅
    · rw [if_neg (not_not_intro hips), hips, ite_self, Finset.empty_union]
    · rw [if_pos hips, Function.update_apply]
      by_cases hk : k = dailyTarget e.1
      · rw [if_pos hk, if_pos hk.symm, hk, Finset.union_assoc]
      · rw [if_neg hk, if_neg (fun h => hk h.symm), Finset.empty_union]

theorem updateRollups_requests (now : Nat) (L : List ParsedEvent) (s : RollupStore) :
    (updateRollups now L s).requests = fun k => s.requests k + reqAdd L k := by
  unfold updateRollups
  by_cases hL : L.isEmpty
  · rw [if_pos hL]
    obtain rfl : L = [] := List.isEmpty_iff.mp hL
    funext k
    simp [reqAdd, aggOf, entryReqAdd]
  · rw [if_neg hL]
    rw [foldl_applyCount_requests, foldl_applyCount_requests, foldl_applyCount_requests,
      foldl_applyDaily_requests]
    rfl

theorem updateRollups_unique (now : Nat) (L : List ParsedEvent) (s : RollupStore) :
    (updateRollups now L s).unique_ips = fun k => s.unique_ips k ∪ ipsAdd L k := by
  unfold updateRollups
  by_cases hL : L.isEmpty
  · rw [if_pos hL]
    obtain rfl : L = [] := List.isEmpty_iff.mp hL
    funext k
    simp [ipsAdd, aggOf, entryIpsAdd]
  · rw [if_neg hL]
    rw [foldl_applyCount_unique, foldl_applyCount_unique, foldl_applyCount_unique,
      foldl_applyDaily_unique]
    rfl

theorem updateRollups_counts (now : Nat) (L : List ParsedEvent) (s : RollupStore) :
    (updateRollups now L s).counts = fun k => s.counts k + cntAdd L k := by
  unfold updateRollups
  by_cases hL : L.isEmpty
  · rw [if_pos hL]
    obtain rfl : L = [] := List.isEmpty_iff.mp hL
    funext k
    simp [cntAdd, aggOf, entryAdd]
  · rw [if_neg hL]
    rw [foldl_applyCount_counts, foldl_applyCount_counts, foldl_applyCount_counts,
      foldl_applyDaily_counts]
    funext k
    simp only [cntAdd, aggOf]
    omega

/--
C5.  Rollup commutativity: for any two (disjoint, as the spec phrases it)
multisets of parsed events `A` and `B`, running the rollup writer on `A`
then `B` or on `B` then `A` yields identical final `requests` counters,
identical `unique_ips` sets and identical `count` counters (covering the
daily, page, referrer and hourly rollup rows), because each family is only
mutated by additive `ADD` / set-union updates.
-/
theorem rollup_commutative (now : Nat) (A B : List ParsedEvent) (s : RollupStore)
    (_hdisj : ∀ x ∈ A, x ∉ B) :
    (updateRollups now B (updateRollups now A s)).requests =
      (updateRollups now A (updateRollups now B s)).requests ∧
    (updateRollups now B (updateRollups now A s)).unique_ips =
      (updateRollups now A (updateRollups now B s)).unique_ips ∧
    (updateRollups now B (updateRollups now A s)).counts =
      (updateRollups now A (updateRollups now B s)).counts := by
  refine ⟨?_, ?_, ?_⟩
  · rw [updateRollups_requests, updateRollups_requests, updateRollups_requests,
      updateRollups_requests]
    funext k
    dsimp only
    omega
  · rw [updateRollups_unique, updateRollups_unique, updateRollups_unique,
      updateRollups_unique]
    funext k
    dsimp only
    rw [Finset.union_right_comm]
  · rw [updateRollups_counts, updateRollups_counts, updateRollups_counts,
      updateRollups_counts]
    funext k
    dsimp only
    omega

/-- Concrete instantiation of `rollup_commutative` on two disjoint
one-event lists. -/
theorem rollup_commutative_witness :
    (∀ x ∈ [sampleEvent1], x ∉ [sampleEvent2]) ∧
    ((updateRollups 0 [sampleEvent2] (updateRollups 0 [sampleEvent1] emptyRollups)).requests =
      (updateRollups 0 [sampleEvent1] (updateRollups 0 [sampleEvent2] emptyRollups)).requests ∧
     (updateRollups 0 [sampleEvent2] (updateRollups 0 [sampleEvent1] emptyRollups)).unique_ips =
      (updateRollups 0 [sampleEvent1] (updateRollups 0 [sampleEvent2] emptyRollups)).unique_ips ∧
     (updateRollups 0 [sampleEvent2] (updateRollups 0 [sampleEvent1] emptyRollups)).counts =
      (updateRollups 0 [sampleEvent1] (updateRollups 0 [sampleEvent2] emptyRollups)).counts) :=
  ⟨by decide, rollup_commutative 0 [sampleEvent1] [sampleEvent2] emptyRollups (by decide)⟩

/-! ### C3 — batch endpoint semantics -/

theorem writeEvents_foldl (allowed : List String) (nowIso uuidStr : String) (nowEpoch : Nat)
    (events : List TrackEvent) (acc : WriteResult) :
    events.foldl
      (fun acc e =>
        match validateEvent allowed e with
        | some err => { acc with errors := acc.errors ++ [err] }
        | none =>
          { acc with
            written := acc.written + 1
            items := acc.items ++ [buildSessionItem nowIso uuidStr nowEpoch e] }) acc =
      { written := acc.written + (events.filter (fun e => validateEvent allowed e = none)).length
        errors := acc.errors ++ events.filterMap (validateEvent allowed)
        items := acc.items ++ (events.filter (fun e => validateEvent allowed e = none)).map
          (buildSessionItem nowIso uuidStr nowEpoch) } := by
  induction events generalizing acc with
  | nil => simp
  | cons e es ih =>
    rw [List.foldl_cons]
    cases hve : validateEvent allowed e with
    | some err =>
      simp only [hve]
      rw [ih]
      simp [List.filter_cons, List.filterMap_cons, hve]
    | none =>
      simp only [hve]
      rw [ih]
      simp [List.filter_cons, List.filterMap_cons, hve]
      omega

/-- `_write_events` validates each event, counts the valid ones, collects
the error messages, and writes exactly the valid events in order. -/
theorem writeEvents_spec (allowed : List String) (nowIso uuidStr : String) (nowEpoch : Nat)
    (events : List TrackEvent) :
    writeEvents allowed nowIso uuidStr nowEpoch events =
      { written := (events.filter (fun e => validateEvent allowed e = none)).length
        errors := events.filterMap (validateEvent allowed)
        items := (events.filter (fun e => validateEvent allowed e = none)).map
          (buildSessionItem nowIso uuidStr nowEpoch) } := by
  unfold writeEvents
  rw [writeEvents_foldl]
  simp

theorem count_valid_add_invalid (allowed : List String) (events : List TrackEvent) :
    (events.filter (fun e => validateEvent allowed e = none)).length +
      (events.filter (fun e => (validateEvent allowed e).isSome)).length = events.length := by
  induction events with
  | nil => simp
  | cons e es ih =>
    cases hve : validateEvent allowed e <;>
      simp [List.filter_cons, hve] <;> omega

theorem filterMap_validate_length (allowed : List String) (events : List TrackEvent) :
    (events.filterMap (validateEvent allowed)).length =
      (events.filter (fun e => (validateEvent allowed e).isSome)).length := by
  induction events with
  | nil => rfl
  | cons e es ih =>
    cases hve : validateEvent allowed e <;>
      simp [List.filterMap_cons, List.filter_cons, hve, ih]

/--
C3.  For every `POST /t/batch` request whose decoded body carries `N`
events of which `K` fail validation: if `N = 0` or `N > 100` the response
is HTTP 400; otherwise the response is HTTP 200 with body
`{status: "ok", written: N-K, errors: K}`, exactly the `N-K` valid events
are written (in order), and no individual validation failure fails the
batch.
-/
theorem batch_endpoint_semantics (allowed : List String) (nowIso uuidStr : String)
    (nowEpoch : Nat) (parseJson : String → Option ReqBody) (b64 : String → Option String)
    (req : HttpRequest) (body : ReqBody)
    (hm : req.method = "POST") (hp : req.rawPath = "/t/batch")
    (hb64 : req.isBase64Encoded = false)
    (hbody : req.body ≠ "") (hjson : parseJson req.body = some body) :
    (body.events.length = 0 →
      (trackerHandler allowed nowIso uuidStr nowEpoch parseJson b64 req).1.statusCode = 400) ∧
    (100 < body.events.length →
      (trackerHandler allowed nowIso uuidStr nowEpoch parseJson b64 req).1.statusCode = 400) ∧
    (1 ≤ body.events.length → body.events.length ≤ 100 →
      (trackerHandler allowed nowIso uuidStr nowEpoch parseJson b64 req).1 =
        jsonResponse 200 (Jv.obj
          [("status", Jv.str "ok"),
           ("written", Jv.num (body.events.length -
             (body.events.filter (fun e => (validateEvent allowed e).isSome)).length)),
           ("errors", Jv.num
             ((body.events.filter (fun e => (validateEvent allowed e).isSome)).length))]) ∧
      (trackerHandler allowed nowIso uuidStr nowEpoch parseJson b64 req).2 =
        (body.events.filter (fun e => validateEvent allowed e = none)).map
          (buildSessionItem nowIso uuidStr nowEpoch)) := by
  have hred : trackerHandler allowed nowIso uuidStr nowEpoch parseJson b64 req =
      handleBatchEvents allowed nowIso uuidStr nowEpoch body.events := by
    unfold trackerHandler
    rw [hm, hp, hb64]
    simp [hbody, hjson]
  rw [hred]
  refine ⟨fun h0 => ?_, fun h100 => ?_, fun h1 h2 => ?_⟩
  · unfold handleBatchEvents
    rw [if_pos (by rw [List.isEmpty_iff, ← List.length_eq_zero]; exact h0)]
    rfl
  · unfold handleBatchEvents
    rw [if_neg (by rw [List.isEmpty_iff, ← List.length_eq_zero]; omega), if_pos h100]
    rfl
  · unfold handleBatchEvents
    rw [if_neg (by rw [List.isEmpty_iff, ← List.length_eq_zero]; omega),
      if_neg (by omega), writeEvents_spec]
    have hw : (body.events.filter (fun e => validateEvent allowed e = none)).length =
        body.events.length -
          (body.events.filter (fun e => (validateEvent allowed e).isSome)).length := by
      have := count_valid_add_invalid allowed body.events
      omega
    refine ⟨?_, rfl⟩
    dsimp only
    rw [hw, filterMap_validate_length]

/-- Concrete instantiation of `batch_endpoint_semantics` (spec §8 scenario
5: three events, one missing `path`, yields `written = 2, errors = 1`). -/
theorem batch_endpoint_semantics_witness :
    (trackerHandler allowedW "2024-01-15T12:00:00" sampleUuid 0 batchParse
        (fun _ => none) batchReq).1 =
      jsonResponse 200 (Jv.obj
        [("status", Jv.str "ok"), ("written", Jv.num 2), ("errors", Jv.num 1)]) ∧
    (trackerHandler allowedW "2024-01-15T12:00:00" sampleUuid 0 batchParse
        (fun _ => none) batchReq).2 =
      [buildSessionItem "2024-01-15T12:00:00" sampleUuid 0 evValid1,
       buildSessionItem "2024-01-15T12:00:00" sampleUuid 0 evValid2] :=
  (batch_endpoint_semantics allowedW "2024-01-15T12:00:00" sampleUuid 0 batchParse
    (fun _ => none) batchReq { events := [evValid1, evMissingPath, evValid2] }
    rfl rfl rfl (by decide) rfl).2.2 (by decide) (by decide)

/-! ### C8 — journey-tracker enrichment -/

/--
C8, amended.  For every valid tracking event accepted by the journey
tracker: if `timestamp` is absent (or empty), the stored timestamp is the
server's UTC time `nowIso` with a trailing `Z`; if `event_id` is absent, the
generated id `str(uuid.uuid4())[:8]` — of length exactly 8 — is used in the
sort key; and the date embedded in `GSI1PK` always equals `timestamp[0:10]`.
The today-fallback the claim describes for malformed timestamps never
fires on a string timestamp: `timestamp[:10]` cannot raise `TypeError` or
`IndexError` on a string, so a malformed string timestamp contributes its
first ten characters as-is (see the counterexample).
-/
theorem session_enrichment (e : TrackEvent) (nowIso uuidStr : String) (nowEpoch : Nat)
    (huuid : 8 ≤ uuidStr.length) :
    (optTruthy e.timestamp = false →
      (buildSessionItem nowIso uuidStr nowEpoch e).timestamp = nowIso ++ "Z") ∧
    (optTruthy e.event_id = false →
      (buildSessionItem nowIso uuidStr nowEpoch e).SK =
        "EVENT#" ++ (buildSessionItem nowIso uuidStr nowEpoch e).timestamp ++ "#" ++
          pySlice uuidStr 0 8 ∧
      (pySlice uuidStr 0 8).length = 8) ∧
    (buildSessionItem nowIso uuidStr nowEpoch e).GSI1PK =
      "DOMAIN#" ++ e.domain.getD "" ++ "#DATE#" ++
        pySlice (buildSessionItem nowIso uuidStr nowEpoch e).timestamp 0 10 := by
  have huuid' : 8 ≤ uuidStr.data.length := huuid
  refine ⟨fun hts => ?_, fun hid => ⟨?_, ?_⟩, rfl⟩
  · show (if optTruthy e.timestamp then e.timestamp.getD "" else nowIso ++ "Z") = nowIso ++ "Z"
    rw [hts]
    simp
  · show "EVENT#" ++ _ ++ "#" ++ (if optTruthy e.event_id then e.event_id.getD ""
        else pySlice uuidStr 0 8) = "EVENT#" ++ _ ++ "#" ++ pySlice uuidStr 0 8
    rw [hid]
    simp only [Bool.false_eq_true, if_false]
    rfl
  · show ((uuidStr.data.drop 0).take (8 - 0)).length = 8
    rw [List.drop_zero, Nat.sub_zero, List.length_take]
    omega

/-- Concrete instantiation of `session_enrichment`: an event with no client
timestamp and no event id gets the server timestamp and an 8-character id. -/
theorem session_enrichment_witness :
    (buildSessionItem "2024-01-15T12:00:00" sampleUuid 0 evValid1).timestamp =
      "2024-01-15T12:00:00" ++ "Z" ∧
    (pySlice sampleUuid 0 8).length = 8 :=
  ⟨(session_enrichment evValid1 "2024-01-15T12:00:00" sampleUuid 0 (by decide)).1 rfl,
   ((session_enrichment evValid1 "2024-01-15T12:00:00" sampleUuid 0 (by decide)).2.1 rfl).2⟩

/--
C8, counterexample to the claim as stated: with the malformed string
timestamp `"abc"`, the tracker does not fall back to today's UTC date —
the date segment of `GSI1PK` is `"abc"` itself (not a 10-character date),
because `timestamp[:10]` never raises on a string.
-/
theorem session_enrichment_counterexample :
    (buildSessionItem "2026-10-12T00:00:00" sampleUuid 0
      { session_id := some "s1", event_type := some "pageview",
        domain := some "example.com", path := some "/",
        timestamp := some "abc" }).GSI1PK = "DOMAIN#example.com#DATE#abc" ∧
    ("abc" : String).length ≠ 10 := by
  exact ⟨by decide, by decide⟩

/-! ### C9 — tracker HTTP contract -/

/-- Every response of the tracker handler carries the fixed header block of
`_response` (lines 43-54). -/
theorem trackerHandler_headers (allowed : List String) (nowIso uuidStr : String)
    (nowEpoch : Nat) (parseJson : String → Option ReqBody) (b64 : String → Option String)
    (req : HttpRequest) :
    (trackerHandler allowed nowIso uuidStr nowEpoch parseJson b64 req).1.headers =
      [("Content-Type", "application/json"),
       ("Access-Control-Allow-Origin", "*"),
       ("Access-Control-Allow-Headers", "Content-Type"),
       ("Access-Control-Allow-Methods", "OPTIONS,POST")] := by
  unfold trackerHandler handleSingleEvent handleBatchEvents errorResponse jsonResponse
  dsimp only
  repeat' split <;> try rfl

/--
C9.  For every HTTP request to the journey tracker: the response carries
`Content-Type: application/json` and the CORS headers including
`Access-Control-Allow-Origin: *`; an `OPTIONS` request yields HTTP 200 with
an empty JSON object body; a method other than `POST`/`OPTIONS` yields HTTP
405 with a JSON `{error}` body; a `POST` whose (base64-decoded, non-empty)
body is not valid JSON yields HTTP 400; and a `POST` with a decoded body to
a path other than `/t` and `/t/batch` yields HTTP 404 with a JSON `{error}`
body.
-/
theorem tracker_http_contract (allowed : List String) (nowIso uuidStr : String)
    (nowEpoch : Nat) (parseJson : String → Option ReqBody) (b64 : String → Option String)
    (req : HttpRequest) :
    (("Content-Type", "application/json") ∈
        (trackerHandler allowed nowIso uuidStr nowEpoch parseJson b64 req).1.headers ∧
     ("Access-Control-Allow-Origin", "*") ∈
        (trackerHandler allowed nowIso uuidStr nowEpoch parseJson b64 req).1.headers) ∧
    (req.method = "OPTIONS" →
      (trackerHandler allowed nowIso uuidStr nowEpoch parseJson b64 req).1.statusCode = 200 ∧
      (trackerHandler allowed nowIso uuidStr nowEpoch parseJson b64 req).1.body = Jv.obj []) ∧
    (req.method ≠ "OPTIONS" → req.method ≠ "POST" →
      (trackerHandler allowed nowIso uuidStr nowEpoch parseJson b64 req).1.statusCode = 405 ∧
      (trackerHandler allowed nowIso uuidStr nowEpoch parseJson b64 req).1.body =
        Jv.obj [("error", Jv.str "Method not allowed")]) ∧
    (∀ s, req.method = "POST" →
      (if req.isBase64Encoded then b64 req.body else some req.body) = some s →
      s ≠ "" → parseJson s = none →
      (trackerHandler allowed nowIso uuidStr nowEpoch parseJson b64 req).1.statusCode = 400 ∧
      (trackerHandler allowed nowIso uuidStr nowEpoch parseJson b64 req).1.body =
        Jv.obj [("error", Jv.str "Invalid JSON body")]) ∧
    (∀ s b, req.method = "POST" →
      (if req.isBase64Encoded then b64 req.body else some req.body) = some s →
      (if s = "" then some ({} : ReqBody) else parseJson s) = some b →
      req.rawPath ≠ "/t" → req.rawPath ≠ "/t/batch" →
      (trackerHandler allowed nowIso uuidStr nowEpoch parseJson b64 req).1.statusCode = 404 ∧
      (trackerHandler allowed nowIso uuidStr nowEpoch parseJson b64 req).1.body =
        Jv.obj [("error", Jv.str "Not found")]) := by
  refine ⟨?_, fun hopt => ?_, fun hnopt hnpost => ?_, fun s hm hs hs0 hpj => ?_,
    fun s b hm hs hb hp1 hp2 => ?_⟩
  · rw [trackerHandler_headers]
    exact ⟨by simp, by simp⟩
  · unfold trackerHandler
    rw [if_pos hopt]
    exact ⟨rfl, rfl⟩
  · unfold trackerHandler
    rw [if_neg hnopt, if_pos hnpost]
    exact ⟨rfl, rfl⟩
  · unfold trackerHandler
    rw [if_neg (by rw [hm]; decide), if_neg (by rw [hm]; decide), hs]
    dsimp only
    rw [if_neg hs0, hpj]
    exact ⟨rfl, rfl⟩
  · unfold trackerHandler
    rw [if_neg (by rw [hm]; decide), if_neg (by rw [hm]; decide), hs]
    dsimp only
    rw [hb]
    dsimp only
    rw [if_neg hp1, if_neg hp2]
    exact ⟨rfl, rfl⟩

/-- Concrete instantiations of `tracker_http_contract`: CORS preflight,
method-not-allowed, invalid JSON, and unknown route. -/
theorem tracker_http_contract_witness :
    ((trackerHandler [] "" "" 0 (fun _ => none) (fun _ => none)
        { method := "OPTIONS", rawPath := "/t" }).1.statusCode = 200 ∧
     (trackerHandler [] "" "" 0 (fun _ => none) (fun _ => none)
        { method := "OPTIONS", rawPath := "/t" }).1.body = Jv.obj []) ∧
    ((trackerHandler [] "" "" 0 (fun _ => none) (fun _ => none)
        { method := "GET", rawPath := "/t" }).1.statusCode = 405 ∧
     (trackerHandler [] "" "" 0 (fun _ => none) (fun _ => none)
        { method := "GET", rawPath := "/t" }).1.body =
        Jv.obj [("error", Jv.str "Method not allowed")]) ∧
    (trackerHandler [] "" "" 0 (fun _ => none) (fun _ => none)
      { method := "POST", rawPath := "/t", body := "not json" }).1.statusCode = 400 ∧
    (trackerHandler [] "" "" 0 (fun _ => some {}) (fun _ => none)
      { method := "POST", rawPath := "/nope", body := "x" }).1.statusCode = 404 :=
  ⟨(tracker_http_contract [] "" "" 0 (fun _ => none) (fun _ => none)
      { method := "OPTIONS", rawPath := "/t" }).2.1 rfl,
   (tracker_http_contract [] "" "" 0 (fun _ => none) (fun _ => none)
      { method := "GET", rawPath := "/t" }).2.2.1 (by decide) (by decide),
   ((tracker_http_contract [] "" "" 0 (fun _ => none) (fun _ => none)
      { method := "POST", rawPath := "/t", body := "not json" }).2.2.2.1
      "not json" rfl rfl (by decide) rfl).1,
   ((tracker_http_contract [] "" "" 0 (fun _ => some {}) (fun _ => none)
      { method := "POST", rawPath := "/nope", body := "x" }).2.2.2.2
      "x" {} rfl rfl rfl (by decide) (by decide)).1⟩

/-! ### C10 — processed equals written -/

theorem writeChunks_count (now : Nat) (items : List ParsedEvent) (store : EventStore)
    (w : Nat) : (writeChunks now items store w).2 = w + items.length := by
  have H : ∀ (N : Nat) (items : List ParsedEvent) (store : EventStore) (w : Nat),
      items.length ≤ N → (writeChunks now items store w).2 = w + items.length := by
    intro N
    induction N with
    | zero =>
      intro items store w h
      obtain rfl : items = [] := List.length_eq_zero.mp (Nat.le_zero.mp h)
      rw [writeChunks]
      simp
    | succ n ih =>
      intro items store w h
      cases items with
      | nil => rw [writeChunks]; simp
      | cons a l =>
        rw [writeChunks]
        rw [ih]
        · rw [List.length_take, List.length_drop]
          simp only [BATCH_SIZE, List.length_cons]
          omega
        · rw [List.length_drop]
          simp only [BATCH_SIZE, List.length_cons] at h ⊢
          omega
  exact H items.length items store w le_rfl

/-- `_batch_write_to_dynamodb` reports exactly one written item per input
item. -/
theorem batchWrite_count (now : Nat) (items : List ParsedEvent) (store : EventStore) :
    (batchWriteToDynamo now items store).2 = items.length := by
  unfold batchWriteToDynamo
  by_cases h : items.isEmpty
  · rw [if_pos h]
    obtain rfl : items = [] := List.isEmpty_iff.mp h
    rfl
  · rw [if_neg h, writeChunks_count]
    omega

theorem processRecord_preserves (u nl : String → String) (fetch : String → String → String)
    (now : Nat) (exts paths : List String) (st : LogHandlerState) (r : S3Record)
    (h : st.totalProcessed = st.totalWritten) :
    (processRecord u nl fetch now exts paths st r).totalProcessed =
      (processRecord u nl fetch now exts paths st r).totalWritten := by
  unfold processRecord
  cases hdom : extractDomainFromS3Key r.key with
  | none => exact h
  | some d =>
    dsimp only
    by_cases hd : d = ""
    · rw [if_pos hd]
      exact h
    · rw [if_neg hd]
      by_cases hitems : ((pySplit (fetch r.bucket r.key) '\n').foldl
          (keptItemsStep u nl exts paths d) []).isEmpty
      · rw [if_pos hitems]
        obtain he := List.isEmpty_iff.mp hitems
        rw [he]
        simpa using h
      · rw [if_neg hitems]
        dsimp only
        rw [batchWrite_count]
        omega

/--
C10.  Whenever a log-parser invocation completes without raising, its
success response reports equal `processed` and `written` counts (with
status code 200): every parsed, non-excluded event is counted once in each
total, for any batch of records.
-/
theorem processed_equals_written (u nl : String → String)
    (fetch : String → String → String) (now : Nat) (exts paths : List String)
    (records : List S3Record) (store : EventStore) (rollups : RollupStore) :
    (logParserHandler u nl fetch now exts paths records store rollups).processed =
      (logParserHandler u nl fetch now exts paths records store rollups).written ∧
    (logParserHandler u nl fetch now exts paths records store rollups).statusCode = 200 := by
  refine ⟨?_, rfl⟩
  unfold logParserHandler
  dsimp only
  have H : ∀ (rs : List S3Record) (st : LogHandlerState),
      st.totalProcessed = st.totalWritten →
      (rs.foldl (processRecord u nl fetch now exts paths) st).totalProcessed =
        (rs.foldl (processRecord u nl fetch now exts paths) st).totalWritten := by
    intro rs
    induction rs with
    | nil => intro st h; exact h
    | cons r rs ih =>
      intro st h
      rw [List.foldl_cons]
      exact ih _ (processRecord_preserves u nl fetch now exts paths st r h)
  exact H records _ rfl

end Analytics
